import Mathlib

/-!
Verification development for the printf-decoding codec
(`printf_df_codec.py`): a shallow embedding of the one-shot decoder
`printf_decode`, the streaming decoder `Printf_IncrementalDecoder`, and
their helpers, with theorems about the behaviours claimed in the
specification.

Modelling conventions:
- a Python `bytes` object is a `List Nat` with entries below 256;
- a Python `str` is a `List Nat` of Unicode code points (`PyStr`);
- Python exceptions are the error side of `Except DecErr`; the distinct
  exception classes raised by the source (`UnicodeDecodeError`,
  `IndexError`, `struct.error`, `KeyError`, `NameError`, `ValueError`)
  are distinguished by the `DecErr` constructors;
- the host language's printf-style formatter (`%` on strings) is
  modelled by `pyFormat` for the template/value shapes the decoder
  produces, distinguishing its `TypeError` and `ValueError` outcomes.
-/

/-- Python strings are sequences of Unicode code points. -/
abbrev PyStr := List Nat

/-- Error policies accepted by the codec (`errors` parameter). -/
inductive Errors
  | strict
  | replace
  | ignore
deriving DecidableEq, Repr

/-- Exception classes that the decoder paths can raise.  `fuelExhausted`
is not a Python exception: it is the out-of-fuel result of the bounded
recursion used for the one-shot decode loop (the fuel supplied is always
sufficient, see the concrete evaluations below). -/
inductive DecErr
  | asciiError
  | indexError
  | structError
  | keyError
  | nameError
  | valueError
  | fuelExhausted
deriving DecidableEq, Repr

/-- Formatter-level rejections of a template/value combination:
Python raises `TypeError` for value/format mismatches and `ValueError`
for templates it cannot parse (for example an unsupported format
character). -/
inductive PyFmtErr
  | typeError
  | valueError
deriving DecidableEq, Repr

/-- bytes.decode ascii with an error policy: strict fails on any byte
at or above 128, replace substitutes U+FFFD, ignore drops the byte. -/
def asciiDecode (er : Errors) : List Nat → Except DecErr PyStr
  | [] => .ok []
  | b :: rest => do
      let t ← asciiDecode er rest
      if b < 128 then .ok (b :: t)
      else
        match er with
        | .strict => .error .asciiError
        | .replace => .ok (0xFFFD :: t)
        | .ignore => .ok t

/-- str.encode ascii with no policy argument (strict): fails on any
code point at or above 128. -/
def asciiEncode : PyStr → Except DecErr (List Nat)
  | [] => .ok []
  | c :: rest => do
      let t ← asciiEncode rest
      if c < 128 then .ok (c :: t)
      else .error .asciiError

/-- Little-endian accumulation of a byte list into a natural number. -/
def leNat : List Nat → Nat
  | [] => 0
  | b :: rest => b + 256 * leNat rest

/-- Two's-complement reading of an unsigned `width`-byte value. -/
def toSigned (width : Nat) (n : Nat) : Int :=
  if n < 2 ^ (8 * width - 1) then (n : Int) else (n : Int) - 2 ^ (8 * width)

/-- struct format codes used by the source (`<b <B <h <H <i <I <f`). -/
inductive StructFmt
  | i8
  | u8
  | i16
  | u16
  | i32
  | u32
  | f32
deriving DecidableEq, Repr

/-- struct.calcsize for the formats above. -/
def structCalcsize : StructFmt → Nat
  | .i8 => 1
  | .u8 => 1
  | .i16 => 2
  | .u16 => 2
  | .i32 => 4
  | .u32 => 4
  | .f32 => 4

/-- Values the decoder hands to the formatter: integers from
struct.unpack, 32-bit floats (kept as their raw little-endian bit
pattern, see `floatText`), and ASCII-decoded strings. -/
inductive PyVal
  | int (i : Int)
  | float32 (bits : Nat)
  | str (s : PyStr)
deriving DecidableEq, Repr

/-- struct.unpack of a single value: requires the buffer length to
equal calcsize (else `struct.error`), then reads little-endian. -/
def structUnpack (f : StructFmt) (bs : List Nat) : Except DecErr PyVal :=
  if bs.length = structCalcsize f then
    match f with
    | .i8 => .ok (.int (toSigned 1 (leNat bs)))
    | .u8 => .ok (.int (leNat bs))
    | .i16 => .ok (.int (toSigned 2 (leNat bs)))
    | .u16 => .ok (.int (leNat bs))
    | .i32 => .ok (.int (toSigned 4 (leNat bs)))
    | .u32 => .ok (.int (leNat bs))
    | .f32 => .ok (.float32 (leNat bs))
  else .error .structError

/-- The VALUE_FORMAT table of the source, keyed by the length-modifier
tag followed by the conversion letter (code points), mapping to the
struct format used to unpack the raw argument bytes. -/
def VALUE_FORMAT : List (PyStr × StructFmt) :=
  [([100], .i32), ([117], .u32), ([111], .u32), ([120], .u32), ([88], .u32),
   ([104, 100], .i16), ([104, 117], .u16), ([104, 111], .u16),
   ([104, 120], .u16), ([104, 88], .u16),
   ([104, 104, 100], .i8), ([104, 104, 117], .u8), ([104, 104, 111], .u8),
   ([104, 104, 120], .u8), ([104, 104, 88], .u8)]

/-- The SPECIAL_CHARS table of the source: six reserved non-ASCII byte
codes mapped to conversion letters (0xD8 X, 0xE4 d, 0xE9 i, 0xEF o,
0xF5 u, 0xF8 x). -/
def SPECIAL_CHARS : List (Nat × Nat) :=
  [(0xD8, 88), (0xE4, 100), (0xE9, 105), (0xEF, 111), (0xF5, 117), (0xF8, 120)]

/-- FLOAT_VAL_CHARS of the source: e E f F g G. -/
def isFloatChar (b : Nat) : Bool :=
  b = 101 || b = 69 || b = 102 || b = 70 || b = 103 || b = 71

/-- NON_VALUE_CHARS of the source: c s % NUL. -/
def isNonValueChar (b : Nat) : Bool :=
  b = 99 || b = 115 || b = 37 || b = 0

/-- SPECIFIER_CHARS of the source: the values and the keys of
SPECIAL_CHARS, the non-value characters, and the float characters.
The values of SPECIAL_CHARS are d i o u x X. -/
def isSpecifierChar (b : Nat) : Bool :=
  b = 100 || b = 105 || b = 111 || b = 117 || b = 120 || b = 88 ||
  (SPECIAL_CHARS.lookup b).isSome || isNonValueChar b || isFloatChar b

/-- Last character of a Python string; raising IndexError when empty
(negative indexing on an empty string). -/
def lastChar (s : PyStr) : Except DecErr Nat :=
  match s.getLast? with
  | some c => .ok c
  | none => .error .indexError

/-- parse_length_chars of the source, always called with a value
character: strips a trailing C99 length-modifier run (one of
h l L j z t, with hh and ll collapsed) from the format, and returns the
cleaned format with the value character re-appended together with the
length tag (empty, h, or hh) followed by the value character. -/
def parse_length_chars (fmt0 : PyStr) (valChar : Nat) :
    Except DecErr (PyStr × PyStr) := do
  let c ← lastChar fmt0
  if c = 104 || c = 108 || c = 76 || c = 106 || c = 122 || c = 116 then
    let fmt1 := fmt0.dropLast
    if c = 104 then do
      let c2 ← lastChar fmt1
      if c2 = 104 then
        .ok (fmt1.dropLast ++ [valChar], [104, 104, valChar])
      else
        .ok (fmt1 ++ [valChar], [104, valChar])
    else if c = 108 then do
      let c2 ← lastChar fmt1
      if c2 = 108 then .ok (fmt1.dropLast ++ [valChar], [valChar])
      else .ok (fmt1 ++ [valChar], [valChar])
    else .ok (fmt1 ++ [valChar], [valChar])
  else .ok (fmt0 ++ [valChar], [valChar])

/-- Decimal digit characters of a natural number (str of an int),
with an explicit fuel argument kept structural. -/
def natBaseAux : Nat → Nat → Bool → Nat → List Nat
  | 0, _, _, _ => []
  | fuel + 1, base, upper, n =>
      let digitChar := fun d : Nat =>
        if d < 10 then 48 + d else (if upper then 55 else 87) + d
      if n < base then [digitChar n]
      else natBaseAux fuel base upper (n / base) ++ [digitChar (n % base)]

/-- Digits of a natural number in a given base (lower or upper case
letters for bases above ten). -/
def natToBase (base : Nat) (upper : Bool) (n : Nat) : List Nat :=
  natBaseAux (n + 1) base upper n

/-- str(n) for a natural number. -/
def decimalOfNat (n : Nat) : PyStr := natToBase 10 false n

/-- str(i) for an integer. -/
def intToDecimal (i : Int) : PyStr :=
  (if i < 0 then [45] else []) ++ decimalOfNat i.natAbs

/-- Modelled from the spec: the host formatter's rendering of a 32-bit
IEEE-754 value is performed by the host language, outside this
repository.  No claim settled here depends on the digits of a rendered
float, only on the totality of float rendering, so the model renders
the raw bit pattern in decimal. -/
def floatText (bits : Nat) : PyStr := decimalOfNat bits

/-- Parsed printf conversion specification (flags, width, precision). -/
structure Spec where
  minus : Bool := false
  plus : Bool := false
  space : Bool := false
  hash : Bool := false
  zero : Bool := false
  width : Nat := 0
  prec : Option Nat := none
deriving DecidableEq, Repr

/-- Consume printf flag characters (- + space # 0). -/
def takeFlags : PyStr → Spec → PyStr × Spec
  | [], sp => ([], sp)
  | b :: rest, sp =>
      if b = 45 then takeFlags rest { sp with minus := true }
      else if b = 43 then takeFlags rest { sp with plus := true }
      else if b = 32 then takeFlags rest { sp with space := true }
      else if b = 35 then takeFlags rest { sp with hash := true }
      else if b = 48 then takeFlags rest { sp with zero := true }
      else (b :: rest, sp)

/-- Consume a run of decimal digits, accumulating their value. -/
def takeDigits : PyStr → Nat → PyStr × Nat
  | [], n => ([], n)
  | b :: rest, n =>
      if 48 ≤ b ∧ b ≤ 57 then takeDigits rest (n * 10 + (b - 48))
      else (b :: rest, n)

/-- Pad a rendered field to the requested width with spaces, on the
right when the minus flag is set. -/
def applyWidth (sp : Spec) (s : PyStr) : PyStr :=
  if sp.width ≤ s.length then s
  else if sp.minus then s ++ List.replicate (sp.width - s.length) 32
  else List.replicate (sp.width - s.length) 32 ++ s

/-- Zero-extend digits to a requested count (integer precision). -/
def zeroExtend (p : Nat) (ds : List Nat) : List Nat :=
  List.replicate (p - ds.length) 48 ++ ds

/-- Render an integer under a printf conversion letter
(d i u decimal, o octal, x X hex), honouring sign, precision,
alternate-form prefix and zero padding as the host formatter does. -/
def formatIntConv (sp : Spec) (conv : Nat) (i : Int) : PyStr :=
  let base := if conv = 111 then 8 else if conv = 120 || conv = 88 then 16 else 10
  let mag0 := natToBase base (conv = 88) i.natAbs
  let mag := match sp.prec with
    | some p => zeroExtend p mag0
    | none => mag0
  let pre :=
    if sp.hash ∧ conv = 111 then [48, 111]
    else if sp.hash ∧ conv = 120 then [48, 120]
    else if sp.hash ∧ conv = 88 then [48, 88]
    else []
  let sign :=
    if i < 0 then [45] else if sp.plus then [43] else if sp.space then [32] else []
  let core := sign ++ pre ++ mag
  if sp.zero ∧ ¬sp.minus ∧ sp.prec = none ∧ core.length < sp.width then
    sign ++ pre ++ List.replicate (sp.width - core.length) 48 ++ mag
  else applyWidth sp core

/-- str() of a formatter value. -/
def pyStrOf : PyVal → PyStr
  | .int i => intToDecimal i
  | .float32 bits => floatText bits
  | .str s => s

/-- Render a string conversion: apply precision as truncation, then
width. -/
def formatStrConv (sp : Spec) (s : PyStr) : PyStr :=
  let s := match sp.prec with
    | some p => s.take p
    | none => s
  applyWidth sp s

/-- Parse and render one conversion specification (the text after a
percent sign), for a single supplied argument.  `used` records whether
the argument has already been consumed; consuming it twice is the
host formatter's not-enough-arguments `TypeError`.  Returns the
rendered piece, the updated flag, and the remaining template. -/
def pyFormatArg (v : PyVal) (used : Bool) (s0 : PyStr) :
    Except PyFmtErr (PyStr × Bool × PyStr) :=
  let (s1, sp) := takeFlags s0 {}
  let widthStep : Except PyFmtErr (PyStr × Spec × Bool) :=
    match s1 with
    | 42 :: s2 =>
        if used then .error .typeError
        else
          match v with
          | .int i =>
              .ok (s2, { sp with width := i.natAbs, minus := sp.minus || i < 0 }, true)
          | _ => .error .typeError
    | _ =>
        let (s2, w) := takeDigits s1 0
        .ok (s2, { sp with width := w }, used)
  match widthStep with
  | .error e => .error e
  | .ok (s2, sp, used) =>
    let precStep : Except PyFmtErr (PyStr × Spec × Bool) :=
      match s2 with
      | 46 :: s3 =>
          match s3 with
          | 42 :: s4 =>
              if used then .error .typeError
              else
                match v with
                | .int i => .ok (s4, { sp with prec := some i.toNat }, true)
                | _ => .error .typeError
          | _ =>
              let (s4, p) := takeDigits s3 0
              .ok (s4, { sp with prec := some p }, used)
      | _ => .ok (s2, sp, used)
    match precStep with
    | .error e => .error e
    | .ok (s3, sp, used) =>
      let s4 := match s3 with
        | b :: rest => if b = 104 || b = 108 || b = 76 then rest else s3
        | [] => s3
      match s4 with
      | [] => .error .valueError
      | c :: s5 =>
          if c = 37 then .ok ([37], used, s5)
          else if c = 100 || c = 105 || c = 117 then
            if used then .error .typeError
            else
              match v with
              | .int i => .ok (formatIntConv sp c i, true, s5)
              | .float32 bits => .ok (applyWidth sp (floatText bits), true, s5)
              | .str _ => .error .typeError
          else if c = 111 || c = 120 || c = 88 then
            if used then .error .typeError
            else
              match v with
              | .int i => .ok (formatIntConv sp c i, true, s5)
              | _ => .error .typeError
          else if isFloatChar c then
            if used then .error .typeError
            else
              match v with
              | .int i => .ok (applyWidth sp (intToDecimal i), true, s5)
              | .float32 bits => .ok (applyWidth sp (floatText bits), true, s5)
              | .str _ => .error .typeError
          else if c = 99 then
            if used then .error .typeError
            else
              match v with
              | .int i =>
                  if 0 ≤ i ∧ i < 1114112 then .ok (applyWidth sp [i.toNat], true, s5)
                  else .error .valueError
              | .str s =>
                  match s with
                  | [ch] => .ok (applyWidth sp [ch], true, s5)
                  | _ => .error .typeError
              | .float32 _ => .error .typeError
          else if c = 115 then
            if used then .error .typeError
            else .ok (formatStrConv sp (pyStrOf v), true, s5)
          else .error .valueError

/-- Walk a template, copying literal characters and rendering each
percent specification, with structural fuel (one unit per template
character suffices). -/
def pyFormatGo (v : PyVal) : Nat → PyStr → Bool → Except PyFmtErr (PyStr × Bool)
  | 0, _, _ => .error .valueError
  | _ + 1, [], used => .ok ([], used)
  | fuel + 1, c :: rest, used =>
      if c = 37 then do
        let (piece, used2, rem) ← pyFormatArg v used rest
        let (out, u) ← pyFormatGo v fuel rem used2
        .ok (piece ++ out, u)
      else do
        let (out, u) ← pyFormatGo v fuel rest used
        .ok (c :: out, u)

/-- The host formatter (template % value) for a single non-tuple
argument: renders the template, then raises `TypeError` if the
argument was never consumed (not all arguments converted). -/
def pyFormat (t : PyStr) (v : PyVal) : Except PyFmtErr PyStr := do
  let (out, used) ← pyFormatGo v (t.length + 1) t false
  if used then .ok out else .error .typeError

/-- sprintf of the source: try the formatter, catch only `TypeError`
by returning the template unrendered; any `ValueError` propagates. -/
def sprintf (fmt : PyStr) (v : PyVal) : Except DecErr PyStr :=
  match pyFormat fmt v with
  | .ok s => .ok s
  | .error .typeError => .ok fmt
  | .error .valueError => .error .valueError

/-- bytes.split(sep, 1): the part before the first separator, and the
part after it when a separator occurs. -/
def splitOnce (sep : Nat) : List Nat → List Nat × Option (List Nat)
  | [] => ([], none)
  | b :: rest =>
      if b = sep then ([], some rest)
      else
        let (pre, post) := splitOnce sep rest
        (b :: pre, post)

/-- bytes.find(sub) for a single byte: first index, or minus one. -/
def bytesFind (x : Nat) : List Nat → Int
  | [] => -1
  | b :: rest =>
      if b = x then 0
      else
        let r := bytesFind x rest
        if r = -1 then -1 else r + 1

/-- Clamp a Python slice index: negative indices count from the end,
and indices are clamped into the valid range. -/
def pyClamp (len : Nat) (j : Int) : Nat :=
  if j < 0 then (len + j).toNat else min j.toNat len

/-- Python slice bs[lo:hi] with Python index semantics. -/
def pySlice (bs : List Nat) (lo hi : Int) : List Nat :=
  (bs.take (pyClamp bs.length hi)).drop (pyClamp bs.length lo)

/-- The specifier scan loop of printf_decode (lines 115-130): walks
print_data from index `i`, appending characters to the running format
(dropping NULs, splicing the decimal text of the byte following a
wildcard), until a specifier character terminates the scan.  Returns
the next index, the format, and the last character examined; `c` stays
as passed in when the remaining input is empty (Python leaves `c`
bound to its previous value, or unbound on the first record).
Reading past the end after a wildcard is the source's IndexError. -/
def scanSpec : List Nat → Nat → PyStr → Option Nat →
    Except DecErr (Nat × PyStr × Option Nat)
  | [], i, fmt, c => .ok (i, fmt, c)
  | b :: rest, i, fmt, _c =>
      if b = 42 then
        match rest with
        | [] => .error .indexError
        | n :: rest2 => scanSpec rest2 (i + 2) (fmt ++ decimalOfNat n) (some 42)
      else
        let fmt2 := if b = 0 then fmt else fmt ++ [b]
        if isSpecifierChar b then .ok (i + 1, fmt2, some b)
        else scanSpec rest (i + 1) fmt2 (some b)

/-- The branch dispatch of printf_decode on the terminating character
(lines 132-163): numeric conversions unpack and render, special bytes
render one raw byte, float conversions unpack four bytes, percent
emits itself, c renders one byte, s renders up to the NUL, and
anything else emits the accumulated format text.  Returns the text to
emit and the updated index. -/
def oneShotBranch (er : Errors) (c : Nat) (fmt : PyStr) (pd : List Nat)
    (i : Nat) : Except DecErr (PyStr × Nat) :=
  match VALUE_FORMAT.lookup [c] with
  | some _ => do
      let (fmt2, key) ← parse_length_chars fmt.dropLast c
      let sf ← (match VALUE_FORMAT.lookup key with
                | some f => Except.ok f
                | none => Except.error DecErr.keyError)
      let n := structCalcsize sf
      let v ← structUnpack sf (pySlice pd i (i + n))
      let s ← sprintf fmt2 v
      .ok (s, i + n)
  | none =>
  match SPECIAL_CHARS.lookup c with
  | some letter => do
      let (fmt2, _) ← parse_length_chars fmt.dropLast letter
      let b ← (match pd.get? i with
               | some b => Except.ok b
               | none => Except.error DecErr.indexError)
      let s ← sprintf fmt2 (.int b)
      .ok (s, i + 1)
  | none =>
  if isFloatChar c then do
      let v ← structUnpack .f32 (pySlice pd i (i + 4))
      let s ← sprintf fmt v
      .ok (s, i + 4)
  else if c = 37 then .ok ([37], i)
  else if c = 99 then do
      let b ← (match pd.get? i with
               | some b => Except.ok b
               | none => Except.error DecErr.indexError)
      let s ← sprintf fmt (.int b)
      .ok (s, i + 1)
  else if c = 115 then do
      let e := bytesFind 0 (pd.drop i)
      let sTxt ← asciiDecode er (pySlice pd i (i + e))
      let s ← sprintf fmt (.str sTxt)
      .ok (s, ((i : Int) + e + 1).toNat)
  else
      let fmt2 := if fmt.getLast? = some 0 then fmt.dropLast else fmt
      .ok (fmt2, i)

/-- The while loop of printf_decode (lines 112-166), processing one
record per iteration: scan the specifier, dispatch on the terminal
character, then split the rest at the next escape byte, append its
ASCII decoding, and continue on the part after the escape.  `cPrev`
carries the value of the loop variable `c` from the previous
iteration (unbound on the first, giving Python's NameError when the
scan leaves it unset).  The fuel argument only bounds the recursion;
each iteration consumes at least the escape byte, so the caller's
fuel is always sufficient. -/
def printf_decode_loop (er : Errors) :
    Nat → Option Nat → List Nat → Except DecErr PyStr
  | 0, _, _ => .error .fuelExhausted
  | fuel + 1, cPrev, pd => do
      let (i, fmt, cOpt) ← scanSpec pd 0 [37] cPrev
      let c ← (match cOpt with
               | some c => Except.ok c
               | none => Except.error DecErr.nameError)
      let (emit, j) ← oneShotBranch er c fmt pd i
      let (pre, post) := splitOnce 0xA5 (pd.drop j)
      let lit ← asciiDecode er pre
      match post with
      | none => .ok (emit ++ lit)
      | some rest => do
          let tail ← printf_decode_loop er fuel (some c) rest
          .ok (emit ++ lit ++ tail)

/-- printf_decode of the source: split at the first escape byte,
ASCII-decode the leading literal text, run the record loop on the
remainder, and return the decoded text together with its length. -/
def printf_decode (er : Errors) (data : List Nat) :
    Except DecErr (PyStr × Nat) := do
  let (pre, post) := splitOnce 0xA5 data
  let r0 ← asciiDecode er pre
  match post with
  | none => .ok (r0, r0.length)
  | some pd => do
      let tail ← printf_decode_loop er (pd.length + 1) none pd
      .ok (r0 ++ tail, (r0 ++ tail).length)

/-- State constants of Printf_IncrementalDecoder. -/
def FIND_FMT_START : Nat := 0

/-- FIND_FMT_END state constant. -/
def FIND_FMT_END : Nat := 1

/-- CAP_VALUE state constant. -/
def CAP_VALUE : Nat := 2

/-- CAP_TEXT state constant. -/
def CAP_TEXT : Nat := 3

/-- CAP_WILD state constant. -/
def CAP_WILD : Nat := 4

/-- Instance state of Printf_IncrementalDecoder: the error policy, the
accumulated format template, the raw-argument buffer, the resolved
argument length and unpack format, and the machine state.  `lenAttr`
models the stray `self.len` attribute created by the c branch (a typo
for val_len): it exists only after that branch has run and is read by
nothing. -/
structure IncDecoder where
  errors : Errors
  print_fmt : PyStr
  data_buffer : List Nat
  val_len : Nat
  val_fmt : Option StructFmt
  lenAttr : Option Nat
  state : Nat
deriving DecidableEq, Repr

/-- A freshly constructed incremental decoder. -/
def initDecoder (er : Errors) : IncDecoder :=
  ⟨er, [], [], 0, none, none, FIND_FMT_START⟩

/-- reset of the source: clears the template, buffer, resolved length
and format, and returns to FIND_FMT_START.  The error policy persists,
and so does the stray `len` attribute, which reset does not touch. -/
def resetD (d : IncDecoder) : IncDecoder :=
  { d with print_fmt := [], data_buffer := [], val_len := 0,
           val_fmt := none, state := FIND_FMT_START }

/-- One byte of the streaming state machine (the body of the for loop
of Printf_IncrementalDecoder.decode, lines 215-278), returning emitted
text and the successor state.  Note the two faithful transcriptions of
source defects: the percent and NUL branches of FIND_FMT_END evaluate
`self.FIND_FMT_START` without assigning it, so the state does not
change; and the c branch assigns `self.len` instead of `self.val_len`,
so `val_len` keeps its reset value zero. -/
def incStep (d : IncDecoder) (b : Nat) : Except DecErr (PyStr × IncDecoder) :=
  if d.state = FIND_FMT_START then
    if b = 0xA5 then
      .ok ([], { resetD d with print_fmt := [37], state := FIND_FMT_END })
    else if b ≠ 0 then .ok ([b], d)
    else .ok ([], d)
  else if d.state = FIND_FMT_END then
    let fmt := d.print_fmt ++ [b]
    match VALUE_FORMAT.lookup [b] with
    | some _ => do
        let (fmt2, key) ← parse_length_chars fmt.dropLast b
        let sf ← (match VALUE_FORMAT.lookup key with
                  | some f => Except.ok f
                  | none => Except.error DecErr.keyError)
        .ok ([], { d with print_fmt := fmt2, val_fmt := some sf,
                          val_len := structCalcsize sf, state := CAP_VALUE })
    | none =>
    match SPECIAL_CHARS.lookup b with
    | some letter => do
        let (fmt2, _) ← parse_length_chars fmt.dropLast letter
        .ok ([], { d with print_fmt := fmt2, val_fmt := some .u8,
                          val_len := 1, state := CAP_VALUE })
    | none =>
    if isFloatChar b then
      .ok ([], { d with print_fmt := fmt, val_fmt := some .f32,
                        val_len := 4, state := CAP_VALUE })
    else if b = 99 then
      .ok ([], { d with print_fmt := fmt, val_fmt := some .u8,
                        lenAttr := some 1, state := CAP_VALUE })
    else if b = 115 then
      .ok ([], { d with print_fmt := fmt, state := CAP_TEXT })
    else if b = 37 then
      .ok ([37], { d with print_fmt := fmt })
    else if b = 0 then
      .ok (fmt, { d with print_fmt := fmt })
    else if b = 42 then
      .ok ([], { d with print_fmt := fmt.dropLast, state := CAP_WILD })
    else
      .ok ([], { d with print_fmt := fmt })
  else if d.state = CAP_VALUE then
    let buf := d.data_buffer ++ [b]
    if buf.length = d.val_len then do
      let v ← (match d.val_fmt with
               | some f => structUnpack f buf
               | none => Except.error DecErr.structError)
      let s ← sprintf d.print_fmt v
      .ok (s, { d with data_buffer := buf, state := FIND_FMT_START })
    else .ok ([], { d with data_buffer := buf })
  else if d.state = CAP_TEXT then
    if b = 0 then do
      let t ← asciiDecode d.errors d.data_buffer
      let s ← sprintf d.print_fmt (.str t)
      .ok (s, { d with state := FIND_FMT_START })
    else .ok ([], { d with data_buffer := d.data_buffer ++ [b] })
  else if d.state = CAP_WILD then
    .ok ([], { d with print_fmt := d.print_fmt ++ decimalOfNat b,
                      state := FIND_FMT_END })
  else .ok ([], d)

/-- Run the streaming machine over a chunk of input bytes. -/
def incDecodeCore : IncDecoder → List Nat → Except DecErr (PyStr × IncDecoder)
  | d, [] => .ok ([], d)
  | d, b :: rest => do
      let (o1, d1) ← incStep d b
      let (o2, d2) ← incDecodeCore d1 rest
      .ok (o1 ++ o2, d2)

/-- Printf_IncrementalDecoder.decode: process the chunk, and when
`final` is set with the machine away from FIND_FMT_START, flush the
accumulated template and the ASCII decoding of the partial argument
buffer, then reset. -/
def incDecode (d : IncDecoder) (input : List Nat) (final : Bool) :
    Except DecErr (PyStr × IncDecoder) := do
  let (r, d1) ← incDecodeCore d input
  if final ∧ d1.state ≠ FIND_FMT_START then do
    let t ← asciiDecode d1.errors d1.data_buffer
    .ok (r ++ d1.print_fmt ++ t, resetD d1)
  else .ok (r, d1)

/-- The text produced by a streaming decode call. -/
def incDecodeText (d : IncDecoder) (input : List Nat) (final : Bool) :
    Except DecErr PyStr :=
  (incDecode d input final).map Prod.fst

/-- getstate of the source: the strict ASCII encoding of the template
concatenated with the raw buffer, paired with the state tag. -/
def getstate (d : IncDecoder) : Except DecErr (List Nat × Nat) := do
  let bs ← asciiEncode d.print_fmt
  .ok (bs ++ d.data_buffer, d.state)

/-- setstate of the source: reset, then replay only the byte component
of the exported state through decode (the phase tag is never read). -/
def setstate (d : IncDecoder) (st : List Nat × Nat) :
    Except DecErr IncDecoder := do
  let (_, d2) ← incDecode (resetD d) st.1 false
  .ok d2

deriving instance DecidableEq for Except

/-- A bound error cannot arise from a bind when neither side can
produce it. -/
theorem bind_ne_error {α β : Type} {x : Except DecErr α}
    {f : α → Except DecErr β} {e : DecErr}
    (hx : x ≠ .error e) (hf : ∀ a, f a ≠ .error e) :
    (x >>= f) ≠ .error e := by
  cases x with
  | error err => simpa [Bind.bind, Except.bind] using hx
  | ok a => simpa [Bind.bind, Except.bind] using hf a

/-- Under a non-strict policy, ASCII decoding never raises the
invalid-ASCII error. -/
theorem asciiDecode_ne (er : Errors) (h : er ≠ .strict) (bs : List Nat) :
    asciiDecode er bs ≠ .error .asciiError := by
  induction bs with
  | nil => simp [asciiDecode]
  | cons b rest ih =>
      simp only [asciiDecode]
      refine bind_ne_error ih ?_
      intro t
      cases er with
      | strict => exact absurd rfl h
      | replace => split <;> simp
      | ignore => split <;> simp

/-- ASCII decoding of pure-ASCII bytes is the identity under every
policy. -/
theorem asciiDecode_ascii (er : Errors) (bs : List Nat)
    (h : ∀ b ∈ bs, b < 128) : asciiDecode er bs = .ok bs := by
  induction bs with
  | nil => rfl
  | cons b rest ih =>
      have hb : b < 128 := h b (by simp)
      have ht := ih (fun x hx => h x (by simp [hx]))
      simp [asciiDecode, ht, Bind.bind, Except.bind, hb]

/-- Splitting on a byte that does not occur returns the whole input
with no second part. -/
theorem splitOnce_no_sep (sep : Nat) (bs : List Nat)
    (h : ∀ b ∈ bs, b ≠ sep) : splitOnce sep bs = (bs, none) := by
  induction bs with
  | nil => rfl
  | cons b rest ih =>
      have hb : b ≠ sep := h b (by simp)
      have ht := ih (fun x hx => h x (by simp [hx]))
      simp [splitOnce, hb, ht]

/-- find of a byte that does not occur returns minus one. -/
theorem bytesFind_neg (x : Nat) (bs : List Nat) (h : ∀ b ∈ bs, b ≠ x) :
    bytesFind x bs = -1 := by
  induction bs with
  | nil => rfl
  | cons b rest ih =>
      have hb : b ≠ x := h b (by simp)
      have ht := ih (fun y hy => h y (by simp [hy]))
      simp [bytesFind, hb, ht]

/-- lastChar can only raise IndexError. -/
theorem lastChar_ne (s : PyStr) : lastChar s ≠ .error .asciiError := by
  unfold lastChar
  cases s.getLast? <;> simp

/-- parse_length_chars can only raise IndexError. -/
theorem parse_length_chars_ne (f : PyStr) (v : Nat) :
    parse_length_chars f v ≠ .error .asciiError := by
  unfold parse_length_chars
  refine bind_ne_error (lastChar_ne f) ?_
  intro c
  split
  · split
    · refine bind_ne_error (lastChar_ne _) ?_
      intro c2
      split <;> simp
    · split
      · refine bind_ne_error (lastChar_ne _) ?_
        intro c2
        split <;> simp
      · simp
  · simp

/-- struct.unpack can only raise struct.error. -/
theorem structUnpack_ne (f : StructFmt) (bs : List Nat) :
    structUnpack f bs ≠ .error .asciiError := by
  unfold structUnpack
  split
  · cases f <;> simp
  · simp

/-- sprintf can only raise ValueError. -/
theorem sprintf_ne (f : PyStr) (v : PyVal) :
    sprintf f v ≠ .error .asciiError := by
  unfold sprintf
  cases h : pyFormat f v with
  | ok s => simp
  | error e => cases e <;> simp

/-- The specifier scan can only raise IndexError. -/
theorem scanSpec_ne (rem : List Nat) (i : Nat) (fmt : PyStr)
    (c : Option Nat) : scanSpec rem i fmt c ≠ .error .asciiError := by
  have H : ∀ n (rem : List Nat), rem.length ≤ n → ∀ (i : Nat) (fmt : PyStr)
      (c : Option Nat), scanSpec rem i fmt c ≠ .error .asciiError := by
    intro n
    induction n with
    | zero =>
        intro rem hlen i fmt c
        have : rem = [] := List.length_eq_zero.mp (Nat.le_zero.mp hlen)
        subst this
        simp [scanSpec]
    | succ n ih =>
        intro rem hlen i fmt c
        match rem with
        | [] => simp [scanSpec]
        | b :: rest =>
            rw [scanSpec.eq_def]
            simp only []
            split
            · match rest with
              | [] => simp
              | m :: rest2 =>
                  have h2 : rest2.length ≤ n := by
                    simp at hlen
                    omega
                  exact ih rest2 h2 _ _ _
            · split
              · simp
              · have h1 : rest.length ≤ n := by
                  simp at hlen
                  omega
                exact ih rest h1 _ _ _
  exact H rem.length rem (Nat.le_refl _) i fmt c

/-- The one-shot branch dispatch never raises the invalid-ASCII error
under a non-strict policy. -/
theorem oneShotBranch_ne (er : Errors) (h : er ≠ .strict) (c : Nat)
    (fmt : PyStr) (pd : List Nat) (i : Nat) :
    oneShotBranch er c fmt pd i ≠ .error .asciiError := by
  unfold oneShotBranch
  split
  next sf0 heq =>
    refine bind_ne_error (parse_length_chars_ne _ _) ?_
    rintro ⟨fmt2, key⟩
    refine bind_ne_error ?_ ?_
    · cases VALUE_FORMAT.lookup key <;> simp
    intro sf
    refine bind_ne_error (structUnpack_ne _ _) ?_
    intro v
    refine bind_ne_error (sprintf_ne _ _) ?_
    intro s
    simp
  next hv =>
    split
    next letter heq =>
      refine bind_ne_error (parse_length_chars_ne _ _) ?_
      rintro ⟨fmt2, key⟩
      refine bind_ne_error ?_ ?_
      · cases pd.get? i <;> simp
      intro b
      refine bind_ne_error (sprintf_ne _ _) ?_
      intro s
      simp
    next hs =>
      split
      · refine bind_ne_error (structUnpack_ne _ _) ?_
        intro v
        refine bind_ne_error (sprintf_ne _ _) ?_
        intro s
        simp
      split
      · simp
      split
      · refine bind_ne_error ?_ ?_
        · cases pd.get? i <;> simp
        intro b
        refine bind_ne_error (sprintf_ne _ _) ?_
        intro s
        simp
      split
      · refine bind_ne_error (asciiDecode_ne er h _) ?_
        intro sTxt
        refine bind_ne_error (sprintf_ne _ _) ?_
        intro s
        simp
      · simp

/-- The record loop never raises the invalid-ASCII error under a
non-strict policy, whatever the fuel. -/
theorem printf_decode_loop_ne (er : Errors) (h : er ≠ .strict) :
    ∀ (fuel : Nat) (cPrev : Option Nat) (pd : List Nat),
    printf_decode_loop er fuel cPrev pd ≠ .error .asciiError := by
  intro fuel
  induction fuel with
  | zero =>
      intro cPrev pd
      simp [printf_decode_loop]
  | succ fuel ih =>
      intro cPrev pd
      rw [printf_decode_loop.eq_def]
      simp only []
      refine bind_ne_error (scanSpec_ne _ _ _ _) ?_
      rintro ⟨i, fmt, cOpt⟩
      refine bind_ne_error ?_ ?_
      · cases cOpt <;> simp
      intro c
      refine bind_ne_error (oneShotBranch_ne er h _ _ _ _) ?_
      rintro ⟨emit, j⟩
      rcases hsp : splitOnce 0xA5 (pd.drop j) with ⟨pre, post⟩
      refine bind_ne_error (asciiDecode_ne er h _) ?_
      intro lit
      cases post with
      | none => simp
      | some rest =>
          refine bind_ne_error (ih _ _) ?_
          intro tail
          simp

/-- C3 (amended): under a non-strict invalid-ASCII policy the one-shot
decoder never raises the invalid-ASCII error: a malformed specifier
only degrades one record to literal output.  (The original claim that
no input raises at all is refuted by `C3_counterexample`: truncated
argument bytes, a trailing wildcard, a trailing escape byte, or a
formatter-rejected template raise struct, index, name, or value
errors.) -/
theorem C3_no_ascii_error (er : Errors) (data : List Nat)
    (h : er ≠ .strict) : printf_decode er data ≠ .error .asciiError := by
  unfold printf_decode
  rcases hsp : splitOnce 0xA5 data with ⟨pre, post⟩
  refine bind_ne_error (asciiDecode_ne er h _) ?_
  intro r0
  cases post with
  | none => simp
  | some pd =>
      refine bind_ne_error (printf_decode_loop_ne er h _ _ _) ?_
      intro tail
      simp

/-- C3 counterexample: a record whose wildcard is the last input byte
makes the one-shot decoder raise IndexError even under the replace
policy, so printf_decode does not return normally on every input. -/
theorem C3_counterexample :
    printf_decode .replace [0xA5, 0x2A] = .error .indexError ∧
    ∀ r : PyStr × Nat, printf_decode .replace [0xA5, 0x2A] ≠ .ok r := by
  refine ⟨rfl, fun r hr => ?_⟩
  have h1 : printf_decode .replace [0xA5, 0x2A] = .error .indexError := rfl
  rw [h1] at hr
  exact Except.noConfusion hr

/-- C3 witness: the amended theorem applied at a concrete input. -/
theorem C3_witness : printf_decode .replace [0x41] ≠ .error .asciiError :=
  C3_no_ascii_error .replace [0x41] (by decide)

/-- C9: the integer returned as the second element of printf_decode is
the length of the decoded output string. -/
theorem C9_returns_output_length (er : Errors) (data : List Nat)
    (r : PyStr) (n : Nat) (h : printf_decode er data = .ok (r, n)) :
    n = r.length := by
  unfold printf_decode at h
  rcases hsp : splitOnce 0xA5 data with ⟨pre, post⟩
  rw [hsp] at h
  simp only [] at h
  cases had : asciiDecode er pre with
  | error e =>
      rw [had] at h
      exact absurd h (by simp [Bind.bind, Except.bind])
  | ok r0 =>
      rw [had] at h
      simp only [Bind.bind, Except.bind] at h
      cases post with
      | none =>
          simp only [Except.ok.injEq, Prod.mk.injEq] at h
          obtain ⟨h1, h2⟩ := h
          rw [← h1, ← h2]
      | some pd =>
          simp only [] at h
          cases hloop : printf_decode_loop er (pd.length + 1) none pd with
          | error e =>
              rw [hloop] at h
              exact absurd h (by simp [Bind.bind, Except.bind])
          | ok tail =>
              rw [hloop] at h
              simp only [Bind.bind, Except.bind, Except.ok.injEq,
                Prod.mk.injEq] at h
              obtain ⟨h1, h2⟩ := h
              rw [← h1, ← h2]

/-- C9 witness: the theorem applied at a concrete decode. -/
theorem C9_witness : (1 : Nat) = ([65] : PyStr).length :=
  C9_returns_output_length .replace [65] [65] 1 rfl

/-- C8: the phase-tag component of the exported state tuple has no
effect on setstate, which resets and replays only the byte
component. -/
theorem C8_setstate_ignores_phase (d : IncDecoder) (b : List Nat)
    (s1 s2 : Nat) : setstate d (b, s1) = setstate d (b, s2) := rfl

/-- C1: chunk/one-shot equivalence fails on the code.  Feeding the
bytes A5 25 61 (escape, percent, letter a) through the streaming
decoder in one chunk and finalizing yields four characters, while the
one-shot decoder yields two: the percent branch of the streaming
machine never returns to FIND_FMT_START, so the following literal byte
is absorbed into the template and flushed at finalize. -/
theorem C1_chunk_equivalence_fails :
    incDecodeText (initDecoder .replace) [0xA5, 0x25, 0x61] true =
      .ok [37, 37, 37, 97] ∧
    printf_decode .replace [0xA5, 0x25, 0x61] = .ok ([37, 97], 2) ∧
    ([37, 37, 37, 97] : PyStr) ≠ [37, 97] :=
  ⟨rfl, rfl, by decide⟩

/-- C2: the state round-trip law fails on the code.  After feeding
A5 68 68 (escape then two length-modifier bytes), the machine is in
FIND_FMT_END with template percent-h-h, but setstate(getstate())
replays the exported bytes as literal text (the escape byte is not
part of them), leaving a reset state; feeding the remaining record
bytes 64 07 then emits them as literals instead of rendering the
value 7. -/
theorem C2_state_roundtrip_fails :
    incDecode (initDecoder .replace) [0xA5, 0x68, 0x68] false =
      .ok ([], ⟨.replace, [37, 104, 104], [], 0, none, none, 1⟩) ∧
    getstate ⟨.replace, [37, 104, 104], [], 0, none, none, 1⟩ =
      .ok ([37, 104, 104], 1) ∧
    setstate ⟨.replace, [37, 104, 104], [], 0, none, none, 1⟩
        ([37, 104, 104], 1) =
      .ok ⟨.replace, [], [], 0, none, none, 0⟩ ∧
    (⟨.replace, [], [], 0, none, none, 0⟩ : IncDecoder) ≠
      ⟨.replace, [37, 104, 104], [], 0, none, none, 1⟩ ∧
    incDecodeText ⟨.replace, [], [], 0, none, none, 0⟩ [0x64, 0x07] true =
      .ok [100, 7] ∧
    incDecodeText (initDecoder .replace) [0xA5, 0x68, 0x68, 0x64, 0x07] true =
      .ok [55] ∧
    ([100, 7] : PyStr) ≠ [55] :=
  ⟨rfl, rfl, rfl, by decide, rfl, rfl, by decide⟩

/-- C6: the percent record does emit a literal percent and consumes no
argument, but the streaming machine is not back in FIND_FMT_START
afterwards: the transition statement is a bare attribute access, so
the machine stays in FIND_FMT_END and the next byte is appended to the
template rather than treated as literal text (the one-shot path does
treat it as literal). -/
theorem C6_percent_state_bug :
    (incDecode (initDecoder .replace) [0xA5, 0x25] false).map
        (fun p => p.2.state) = .ok FIND_FMT_END ∧
    FIND_FMT_END ≠ FIND_FMT_START ∧
    incDecodeText (initDecoder .replace) [0xA5, 0x25, 0x62] true =
      .ok [37, 37, 37, 98] ∧
    printf_decode .replace [0xA5, 0x25, 0x62] = .ok ([37, 98], 2) :=
  ⟨rfl, by decide, rfl, rfl⟩

/-- C4 (amended): only formatter rejections of class TypeError (a
value/format mismatch) are caught by sprintf, which then returns the
literal cleaned format string; a ValueError rejection (a template the
formatter cannot parse) propagates, see `C4_counterexample`. -/
theorem C4_typeerror_fallback (t : PyStr) (v : PyVal)
    (h : pyFormat t v = .error .typeError) : sprintf t v = .ok t := by
  unfold sprintf
  rw [h]

/-- C4 counterexample: the record A5 71 E4 07 accumulates the template
percent-q-d, which the formatter rejects with ValueError (unsupported
format character q); the exception propagates out of printf_decode
instead of the template being emitted unrendered. -/
theorem C4_counterexample :
    printf_decode .replace [0xA5, 0x71, 0xE4, 0x07] = .error .valueError ∧
    ∀ r : PyStr × Nat,
      printf_decode .replace [0xA5, 0x71, 0xE4, 0x07] ≠ .ok r := by
  refine ⟨rfl, fun r hr => ?_⟩
  have h1 : printf_decode .replace [0xA5, 0x71, 0xE4, 0x07] =
      .error .valueError := rfl
  rw [h1] at hr
  exact Except.noConfusion hr

/-- C4 witness: the amended theorem applied at a concrete mismatch. -/
theorem C4_witness :
    pyFormat [37, 100] (.str [120]) = .error .typeError ∧
    sprintf [37, 100] (.str [120]) = .ok [37, 100] :=
  ⟨rfl, C4_typeerror_fallback [37, 100] (.str [120]) rfl⟩

/-- C5 (amended): a record terminated by one of the six special bytes
has its length modifiers stripped and the byte mapped to its
conversion letter, but the decoder always consumes exactly one raw
argument byte, rendered as its unsigned byte value, regardless of the
modifier class, in both the one-shot and streaming paths: here the
record renders the argument 7 and the trailing byte 9 stays literal
text in every case. -/
theorem C5_special_one_byte (sb : Nat) (mods : List Nat)
    (hs : sb ∈ [0xD8, 0xE4, 0xE9, 0xEF, 0xF5, 0xF8])
    (hm : mods ∈ [[], [0x68], [0x68, 0x68]]) :
    printf_decode .replace (0xA5 :: mods ++ [sb, 0x07, 0x09]) =
      .ok ([55, 9], 2) ∧
    incDecodeText (initDecoder .replace) (0xA5 :: mods ++ [sb, 0x07, 0x09])
      true = .ok [55, 9] := by
  fin_cases hs <;> fin_cases hm <;> exact ⟨rfl, rfl⟩

/-- C5 counterexample: the special-byte record A5 E4 01 02 03 04 with
no length modifier consumes one argument byte (rendering 1 and leaving
02 03 04 as literal text), not the four bytes of the resolved width
class with the little-endian value 0x04030201 that the claim
predicts. -/
theorem C5_counterexample :
    printf_decode .replace [0xA5, 0xE4, 0x01, 0x02, 0x03, 0x04] =
      .ok ([49, 2, 3, 4], 4) ∧
    printf_decode .replace [0xA5, 0xE4, 0x01, 0x02, 0x03, 0x04] ≠
      .ok (intToDecimal (toSigned 4 (leNat [0x01, 0x02, 0x03, 0x04])), 8) :=
  ⟨rfl, by decide⟩

/-- C5 witness: the amended theorem applied at the special byte for i
with no modifier. -/
theorem C5_witness :
    printf_decode .replace [0xA5, 0xE9, 0x07, 0x09] = .ok ([55, 9], 2) ∧
    incDecodeText (initDecoder .replace) [0xA5, 0xE9, 0x07, 0x09] true =
      .ok [55, 9] := by
  simpa using C5_special_one_byte 0xE9 [] (by decide) (by decide)

/-- C7 (amended): the streaming decoder emits literal bytes outside
records verbatim with NUL bytes discarded, but the one-shot decoder
ASCII-decodes its literal segments verbatim including NUL bytes: for
escape-free ASCII input the whole input (NULs included) is returned
unchanged under every policy. -/
theorem C7_literal_handling :
    (∀ (d : IncDecoder) (b : Nat), d.state = FIND_FMT_START → b ≠ 0xA5 →
      incStep d b = .ok (if b = 0 then [] else [b], d)) ∧
    (∀ (er : Errors) (data : List Nat), (∀ b ∈ data, b < 128 ∧ b ≠ 0xA5) →
      printf_decode er data = .ok (data, data.length)) := by
  constructor
  · intro d b hstate hb
    unfold incStep
    rw [hstate]
    simp only [if_pos rfl]
    split_ifs with h1 h2 <;> simp_all
  · intro er data hdata
    unfold printf_decode
    rw [splitOnce_no_sep 0xA5 data (fun b hb => (hdata b hb).2)]
    simp only []
    rw [asciiDecode_ascii er data (fun b hb => (hdata b hb).1)]
    simp [Bind.bind, Except.bind]

/-- C7 counterexample: a lone NUL byte is not discarded by the
one-shot decoder: the decoded text is the NUL character, not the empty
string the claim predicts. -/
theorem C7_counterexample :
    printf_decode .replace [0x00] = .ok ([0], 1) ∧
    printf_decode .replace [0x00] ≠ .ok ([], 0) :=
  ⟨rfl, by decide⟩

/-- C7 witness: the amended theorem applied to a NUL fed to the
streaming machine and to a NUL-containing one-shot input. -/
theorem C7_witness :
    incStep (initDecoder .replace) 0 = .ok ([], initDecoder .replace) ∧
    printf_decode .strict [0, 65] = .ok ([0, 65], 2) := by
  constructor
  · simpa using C7_literal_handling.1 (initDecoder .replace) 0 rfl (by decide)
  · simpa using C7_literal_handling.2 .strict [0, 65] (by decide)

/-- C10 (amended): when an s-record's remaining input contains no NUL
byte, find returns minus one, so the one-shot decoder renders the
template against the empty string (the slice from the payload start to
one before it is empty), does not advance the read position, and then
emits the payload bytes once as literal text, without raising. -/
theorem C10_s_without_nul (payload : List Nat)
    (h : ∀ b ∈ payload, b < 128 ∧ b ≠ 0 ∧ b ≠ 0xA5) :
    printf_decode .replace (0xA5 :: 0x73 :: payload) =
      .ok (payload, payload.length) := by
  have hfind : bytesFind 0 payload = -1 :=
    bytesFind_neg 0 payload (fun b hb => ((h b hb).2).1)
  have hscan : scanSpec (0x73 :: payload) 0 [37] none =
      Except.ok (1, [37, 0x73], some 0x73) := by
    rw [scanSpec.eq_def]
    norm_num [isSpecifierChar, isNonValueChar, SPECIAL_CHARS]
  have hbranch : oneShotBranch .replace 0x73 [37, 0x73] (0x73 :: payload) 1 =
      .ok ([], 1) := by
    unfold oneShotBranch
    simp only [show VALUE_FORMAT.lookup [(0x73 : Nat)] = none from rfl,
      show SPECIAL_CHARS.lookup (0x73 : Nat) = none from rfl]
    norm_num [isFloatChar]
    rw [hfind]
    norm_num [pySlice, pyClamp]
    rfl
  have hloop : printf_decode_loop .replace ((0x73 :: payload).length + 1)
      none (0x73 :: payload) = .ok payload := by
    rw [show (0x73 :: payload).length + 1 = (payload.length + 1) + 1 from rfl]
    rw [printf_decode_loop.eq_def]
    simp only []
    rw [hscan]
    simp only [Bind.bind, Except.bind]
    rw [hbranch]
    simp only []
    rw [show List.drop 1 (0x73 :: payload) = payload from rfl]
    rw [splitOnce_no_sep 0xA5 payload (fun b hb => ((h b hb).2).2)]
    simp only []
    rw [asciiDecode_ascii .replace payload (fun b hb => (h b hb).1)]
    simp [Bind.bind, Except.bind]
  unfold printf_decode
  rw [show splitOnce 0xA5 (0xA5 :: 0x73 :: payload) =
    ([], some (0x73 :: payload)) from rfl]
  simp only []
  rw [show asciiDecode Errors.replace ([] : List Nat) = Except.ok [] from rfl]
  simp only [Bind.bind, Except.bind]
  rw [hloop]
  simp [Bind.bind, Except.bind]

/-- C10 counterexample: for the s-record A5 73 41 42 with no NUL, the
output is the payload A B emitted once (the template renders against
the empty string), not the claimed rendering against all remaining
bytes but the last followed by the payload again (which would give
A A B). -/
theorem C10_counterexample :
    printf_decode .replace [0xA5, 0x73, 0x41, 0x42] = .ok ([0x41, 0x42], 2) ∧
    printf_decode .replace [0xA5, 0x73, 0x41, 0x42] ≠
      .ok ([0x41, 0x41, 0x42], 3) :=
  ⟨rfl, by decide⟩

/-- C10 witness: the amended theorem applied at a one-byte payload. -/
theorem C10_witness :
    printf_decode .replace [0xA5, 0x73, 0x42] = .ok ([0x42], 1) := by
  simpa using C10_s_without_nul [0x42] (by decide)
